import Mathlib

/-!
# Verification of the book repository of `rusty-book-manager`

A shallow embedding of the book data-access layer
(`src/adapter/src/repository/book.rs`) and the book HTTP handlers
(`src/api/src/handler/book.rs`).

The database state is a record of the three tables the queries touch
(`books`, `users`, `checkouts`); each SQL statement is translated into a
pure function on that state.  Identifiers (UUIDs in the code) and
timestamps are modelled as `Nat`; pagination arguments (`i64` in the
code, always non-negative where used) are modelled as `Nat`.
-/

namespace BookManager

/-- A row of the `books` table (schema: `books(book_id, title, author,
isbn, description, user_id, created_at)`). -/
structure BooksRow where
  book_id : Nat
  title : String
  author : String
  isbn : String
  description : String
  user_id : Nat
  created_at : Nat
deriving Repr, DecidableEq

/-- A row of the `users` table (only the columns the book queries read). -/
structure UsersRow where
  user_id : Nat
  name : String
deriving Repr, DecidableEq

/-- A row of the `checkouts` table.  `returned_at = none` means the
checkout is open (the book is currently lent out). -/
structure CheckoutsRow where
  checkout_id : Nat
  book_id : Nat
  checked_out_by : Nat
  checked_out_at : Nat
  returned_by : Option Nat
  returned_at : Option Nat
deriving Repr, DecidableEq

/-- The database state the repository operates on. -/
structure Db where
  books : List BooksRow
  users : List UsersRow
  checkouts : List CheckoutsRow
deriving Repr, DecidableEq

/-- `shared::error::AppError`, restricted to the variants the book
repository and handlers produce. -/
inductive AppError where
  | EntityNotFound (msg : String)
  | SpecificOperationError
deriving Repr, DecidableEq

/-- `kernel::model::book::event::CreateBook`. -/
structure CreateBook where
  title : String
  author : String
  isbn : String
  description : String
deriving Repr, DecidableEq

/-- `kernel::model::book::event::UpdateBook`. -/
structure UpdateBook where
  book_id : Nat
  title : String
  author : String
  isbn : String
  description : String
  requested_user : Nat
deriving Repr, DecidableEq

/-- `kernel::model::book::event::DeleteBook`. -/
structure DeleteBook where
  book_id : Nat
  requested_user : Nat
deriving Repr, DecidableEq

/-- The owner reference carried by a domain `Book` (id and name). -/
structure BookOwner where
  id : Nat
  name : String
deriving Repr, DecidableEq

/-- The checkout information a domain `Book` can carry: checkout id,
borrower reference and checked-out timestamp (as exercised by
`test_book_checkout` in `src/adapter/src/repository/book.rs`). -/
structure CheckoutView where
  checkout_id : Nat
  checked_out_by : Nat
  checked_out_at : Nat
deriving Repr, DecidableEq

/-- The domain `kernel::model::book::Book`: id, fields, owner, and an
optional `checkout`. -/
structure Book where
  id : Nat
  title : String
  author : String
  isbn : String
  description : String
  owner : BookOwner
  checkout : Option CheckoutView
deriving Repr, DecidableEq

/-- `crate::database::model::book::BookRow`: its fields are fixed by the
column lists of the `query_as!` calls in
`src/adapter/src/repository/book.rs` (lines 67-87 and 99-122): exactly
`book_id, title, author, isbn, description, owned_by, owner_name`.
The queries select no checkout column. -/
structure BookRow where
  book_id : Nat
  title : String
  author : String
  isbn : String
  description : String
  owned_by : Nat
  owner_name : String
deriving Repr, DecidableEq

/-- `crate::database::model::book::PaginatedBookRow`: the rows of the
first `find_all` query (`COUNT(*) OVER() AS total, book_id AS id`). -/
structure PaginatedBookRow where
  total : Nat
  id : Nat
deriving Repr, DecidableEq

/-- `kernel::model::list::PaginatedList`. -/
structure PaginatedList (α : Type) where
  total : Nat
  limit : Nat
  offset : Nat
  items : List α
deriving Repr, DecidableEq

/-- `Book::from(BookRow)`.  `BookRow` carries no checkout column (see
`BookRow` above), and a pure row conversion observes nothing but the row,
so the produced `Book`'s `checkout` can only be `none`. -/
def Book.fromRow (r : BookRow) : Book :=
  { id := r.book_id
    title := r.title
    author := r.author
    isbn := r.isbn
    description := r.description
    owner := { id := r.owned_by, name := r.owner_name }
    checkout := none }

/-- The comparison of `ORDER BY b.created_at DESC`. -/
def createdDesc (a b : BooksRow) : Bool :=
  decide (b.created_at ≤ a.created_at)

/-- The `books` table ordered by `created_at DESC`. -/
def sortedBooks (db : Db) : List BooksRow :=
  db.books.mergeSort createdDesc

/-- Step (a) of `find_all`:
`SELECT COUNT(*) OVER() AS total, book_id AS id FROM books
 ORDER BY created_at DESC LIMIT $1 OFFSET $2`.
The window count `COUNT(*) OVER()` is computed before `LIMIT`/`OFFSET`
and equals the number of rows of `books`. -/
def findAllWindow (db : Db) (limit offset : Nat) : List PaginatedBookRow :=
  (((sortedBooks db).drop offset).take limit).map
    (fun b => { total := db.books.length, id := b.book_id })

/-- `INNER JOIN users AS u USING(user_id)`: each book paired with its
owner row.  `user_id` is the primary key of `users`, so at most one user
row matches each book. -/
def joinOwner (db : Db) : List (BooksRow × UsersRow) :=
  db.books.filterMap fun b =>
    (db.users.find? (fun u => u.user_id == b.user_id)).map (fun u => (b, u))

/-- Projection of a joined row onto the selected columns of the detail
query (step (b) of `find_all`, also the `find_by_id` query). -/
def toBookRow (p : BooksRow × UsersRow) : BookRow :=
  { book_id := p.1.book_id
    title := p.1.title
    author := p.1.author
    isbn := p.1.isbn
    description := p.1.description
    owned_by := p.2.user_id
    owner_name := p.2.name }

/-- The comparison of `ORDER BY b.created_at DESC` on joined rows. -/
def createdDescPair (a b : BooksRow × UsersRow) : Bool :=
  decide (b.1.created_at ≤ a.1.created_at)

/-- Step (b) of `find_all` before projection:
`FROM books INNER JOIN users USING(user_id)
 WHERE book_id IN (SELECT * FROM UNNEST($1::UUID[]))
 ORDER BY created_at DESC`. -/
def findAllDetail (db : Db) (ids : List Nat) : List (BooksRow × UsersRow) :=
  ((joinOwner db).filter (fun p => ids.contains p.1.book_id)).mergeSort createdDescPair

/-- The pure body of `BookRepositoryImpl::find_all`: run step (a), read
`total` off the first returned row (`unwrap_or_default()`, hence `0` on an
empty window), collect the ids, run step (b), convert the rows. -/
def findAllList (db : Db) (limit offset : Nat) : PaginatedList Book :=
  let rows₁ := findAllWindow db limit offset
  let total := (rows₁.head?.map (fun r => r.total)).getD 0
  let book_ids := rows₁.map (fun r => r.id)
  let rows₂ := (findAllDetail db book_ids).map toBookRow
  { total := total, limit := limit, offset := offset, items := rows₂.map Book.fromRow }

/-- `BookRepositoryImpl::find_all` (database failures are not modelled, so
the result is always `ok`). -/
def find_all (db : Db) (limit offset : Nat) : Except AppError (PaginatedList Book) :=
  Except.ok (findAllList db limit offset)

/-- The pure body of `BookRepositoryImpl::find_by_id`: the single-row
query `... WHERE book_id = $1` via `fetch_optional`, then `row.map(Book::from)`. -/
def findById (db : Db) (book_id : Nat) : Option Book :=
  ((joinOwner db).find? (fun p => p.1.book_id == book_id)).map
    (fun p => Book.fromRow (toBookRow p))

/-- `BookRepositoryImpl::find_by_id`: absence of a row is `ok none`, not
an error. -/
def find_by_id (db : Db) (book_id : Nat) : Except AppError (Option Book) :=
  Except.ok (findById db book_id)

/-- The `WHERE book_id = $5 AND user_id = $6` clause of the UPDATE. -/
def updMatches (e : UpdateBook) (b : BooksRow) : Bool :=
  b.book_id == e.book_id && b.user_id == e.requested_user

/-- The SET clause of the UPDATE applied to one row: only `title`,
`author`, `isbn`, `description` are assigned, and only on a matching row. -/
def applyUpdate (e : UpdateBook) (b : BooksRow) : BooksRow :=
  if updMatches e b then
    { b with title := e.title, author := e.author, isbn := e.isbn,
             description := e.description }
  else b

/-- `BookRepositoryImpl::update`: run the UPDATE, read `rows_affected`,
fail with `EntityNotFound` when it is below one. -/
def update (db : Db) (e : UpdateBook) : Except AppError Db :=
  let affected := db.books.countP (updMatches e)
  if affected < 1 then
    Except.error (AppError.EntityNotFound "Specified boook not found")
  else
    Except.ok { db with books := db.books.map (applyUpdate e) }

/-- The `WHERE book_id = $1 AND user_id = $2` clause of the DELETE. -/
def delMatches (e : DeleteBook) (b : BooksRow) : Bool :=
  b.book_id == e.book_id && b.user_id == e.requested_user

/-- `BookRepositoryImpl::delete`: run the DELETE, read `rows_affected`,
fail with `EntityNotFound` when it is below one. -/
def delete (db : Db) (e : DeleteBook) : Except AppError Db :=
  let affected := db.books.countP (delMatches e)
  if affected < 1 then
    Except.error (AppError.EntityNotFound "Specified book not found")
  else
    Except.ok { db with books := db.books.filter (fun b => !(delMatches e b)) }

/-- `BookRepositoryImpl::create`: `INSERT INTO books (title, author, isbn,
description, user_id) VALUES (...)`; the database supplies the fresh
`book_id` and `created_at`, passed here as explicit arguments. -/
def create (db : Db) (e : CreateBook) (user_id new_id new_created_at : Nat) :
    Except AppError Db :=
  Except.ok
    { db with
      books := db.books ++
        [{ book_id := new_id, title := e.title, author := e.author,
           isbn := e.isbn, description := e.description,
           user_id := user_id, created_at := new_created_at }] }

/-- Whether an open checkout (one with `returned_at` unset) exists for a
book.  Modelled from the spec: the glossary defines an open checkout as a
checkout record whose `returned_at` is unset. -/
def hasOpenCheckout (db : Db) (book_id : Nat) : Bool :=
  db.checkouts.any (fun c => c.book_id == book_id && c.returned_at == none)

/-- Modelled from the spec: `CheckoutRepositoryImpl::update_returned` is
not among the provided source files; per the spec it marks the matching
open checkout as returned by setting `returned_by`/`returned_at`. -/
def update_returned (db : Db) (checkout_id returned_by returned_at : Nat) : Db :=
  { db with
    checkouts := db.checkouts.map fun c =>
      if c.checkout_id == checkout_id && c.returned_at == none then
        { c with returned_by := some returned_by, returned_at := some returned_at }
      else c }

/-- The handler `show_book` (`src/api/src/handler/book.rs`): `find_by_id`,
then `Some` becomes `Ok(Json(..))` and `None` becomes
`Err(AppError::EntityNotFound("not found"))`. -/
def show_book (db : Db) (book_id : Nat) : Except AppError Book :=
  match find_by_id db book_id with
  | Except.ok (some b) => Except.ok b
  | Except.ok none => Except.error (AppError.EntityNotFound "not found")
  | Except.error e => Except.error e

/-- Modelled from the spec: the HTTP status mapping of `shared::error`
(not among the provided source files); a success response carries 200,
`EntityNotFound` maps to 404, a persistence failure to a 5xx status. -/
def httpStatus : Except AppError Book → Nat
  | Except.ok _ => 200
  | Except.error (AppError.EntityNotFound _) => 404
  | Except.error AppError.SpecificOperationError => 500

/-! ## Helper lemmas -/

theorem sortedBooks_perm (db : Db) : List.Perm (sortedBooks db) db.books :=
  List.mergeSort_perm db.books createdDesc

theorem length_sortedBooks (db : Db) : (sortedBooks db).length = db.books.length :=
  (sortedBooks_perm db).length_eq

theorem sorted_sortedBooks (db : Db) :
    (sortedBooks db).Pairwise (fun a b => b.created_at ≤ a.created_at) := by
  have h : (db.books.mergeSort createdDesc).Pairwise (fun a b => createdDesc a b = true) :=
    List.sorted_mergeSort
      (fun a b c hab hbc => by
        simp only [createdDesc, decide_eq_true_eq] at *; omega)
      (fun a b => by
        simp only [createdDesc]
        rcases Nat.le_total b.created_at a.created_at with h | h <;> simp [h])
      db.books
  exact h.imp (fun hab => by simpa [createdDesc] using hab)

theorem sorted_findAllDetail (db : Db) (ids : List Nat) :
    (findAllDetail db ids).Pairwise (fun p q => q.1.created_at ≤ p.1.created_at) := by
  have h : (((joinOwner db).filter
      (fun p => ids.contains p.1.book_id)).mergeSort createdDescPair).Pairwise
        (fun a b => createdDescPair a b = true) :=
    List.sorted_mergeSort
      (fun a b c hab hbc => by
        simp only [createdDescPair, decide_eq_true_eq] at *; omega)
      (fun a b => by
        simp only [createdDescPair]
        rcases Nat.le_total b.1.created_at a.1.created_at with h | h <;> simp [h])
      ((joinOwner db).filter (fun p => ids.contains p.1.book_id))
  exact h.imp (fun hab => by simpa [createdDescPair] using hab)

theorem joinOwner_fst_sublist (db : Db) :
    ((joinOwner db).map Prod.fst).Sublist db.books := by
  unfold joinOwner
  induction db.books with
  | nil => simp
  | cons a t ih =>
    rw [List.filterMap_cons]
    cases h : (db.users.find? (fun u => u.user_id == a.user_id)).map (fun u => (a, u)) with
    | none => exact ih.cons a
    | some p =>
      rcases Option.map_eq_some'.mp h with ⟨u, _, hp⟩
      rw [List.map_cons, ← hp]
      exact ih.cons₂ a

theorem mem_joinOwner_books {db : Db} {p : BooksRow × UsersRow}
    (h : p ∈ joinOwner db) : p.1 ∈ db.books := by
  rcases List.mem_filterMap.mp h with ⟨b, hb, heq⟩
  rcases Option.map_eq_some'.mp heq with ⟨u, _, hp⟩
  rw [← hp]
  exact hb

/-! ## Concrete database states -/

/-- One user, one book, one open checkout on that book. -/
def dbC1 : Db :=
  { books := [⟨7, "t", "a", "i", "d", 1, 5⟩]
    users := [⟨1, "alice"⟩]
    checkouts := [⟨3, 7, 2, 10, none, none⟩] }

/-- One user, one book, one open checkout by borrower 6. -/
def dbC7 : Db :=
  { books := [⟨2, "x", "y", "z", "w", 4, 1⟩]
    users := [⟨4, "bob"⟩]
    checkouts := [⟨9, 2, 6, 20, none, none⟩] }

/-- A store holding exactly one book. -/
def dbOne : Db :=
  { books := [⟨1, "only", "au", "is", "de", 1, 0⟩]
    users := [⟨1, "u"⟩]
    checkouts := [] }

/-- A second store holding exactly one book. -/
def dbOne' : Db :=
  { books := [⟨4, "solo", "au", "is", "de", 2, 0⟩]
    users := [⟨2, "v"⟩]
    checkouts := [] }

/-! ## Theorems for the claims -/

/-- C1: the claim says the `checkout` field of a returned `Book` is present
iff an open checkout exists.  The code at the failing input: `dbC1` holds an
open checkout for book 7 (`returned_at` unset), yet both `find_by_id` and
`find_all` return book 7 with `checkout = none` — the queries select no
checkout column, so the conversion to `Book` can never report one. -/
theorem c1_open_checkout_not_reported :
    hasOpenCheckout dbC1 7 = true ∧
    find_by_id dbC1 7 = Except.ok (some
      { id := 7, title := "t", author := "a", isbn := "i", description := "d",
        owner := { id := 1, name := "alice" }, checkout := none }) ∧
    (findAllList dbC1 10 0).items.map (fun b => b.checkout) = [none] := by
  refine ⟨rfl, rfl, ?_⟩
  simp [findAllList, findAllWindow, findAllDetail, sortedBooks, joinOwner,
    toBookRow, Book.fromRow, dbC1, List.mergeSort, List.filterMap, List.find?]

/-- C7: the claim says that before a return, `find_by_id` reports the open
checkout's borrower id.  The code at the failing input: with an open
checkout by borrower 6 on book 2, `find_by_id` reports `checkout = none`
(and still reports `none` after `update_returned`, so the "after" half
holds vacuously). -/
theorem c7_borrower_never_reported :
    hasOpenCheckout dbC7 2 = true ∧
    (findById dbC7 2).map (fun b => b.checkout) = some none ∧
    (findById (update_returned dbC7 9 6 30) 2).map (fun b => b.checkout) = some none :=
  ⟨rfl, rfl, rfl⟩

/-- C2, counterexample: with one book in the store and `offset = 1 ≥ total`,
`find_all` returns `total = 0`, not the true count `1` the claim requires. -/
theorem c2_counterexample :
    (findAllList dbOne 10 1).items = [] ∧
    (findAllList dbOne 10 1).total = 0 ∧
    dbOne.books.length = 1 := by
  refine ⟨?_, ?_, rfl⟩ <;>
    simp [findAllList, findAllWindow, findAllDetail, sortedBooks, joinOwner,
      dbOne, List.mergeSort]

/-- C2, amended: whenever `offset` is at least the number of books in the
store, `find_all` returns an empty `items` list and `total = 0` — the window
query returns no row, and `unwrap_or_default()` turns the missing window
count into `0` regardless of the true number of books. -/
theorem c2_offset_beyond_total (db : Db) (limit offset : Nat)
    (h : db.books.length ≤ offset) :
    (findAllList db limit offset).items = [] ∧ (findAllList db limit offset).total = 0 := by
  have hd : (sortedBooks db).drop offset = [] := by
    apply List.drop_eq_nil_of_le
    rw [length_sortedBooks]
    exact h
  constructor <;> simp [findAllList, findAllWindow, findAllDetail, hd]

/-- Witness for `c2_offset_beyond_total` at `dbOne'`, `limit = 10`,
`offset = 5`. -/
theorem c2_offset_beyond_total_witness :
    (findAllList dbOne' 10 5).items = [] ∧ (findAllList dbOne' 10 5).total = 0 :=
  c2_offset_beyond_total dbOne' 10 5 (by decide)

/-- C3, counterexample: with one book in the store and `limit = 0`, the
window query returns no row, so `find_all` returns `total = 0` instead of
the full count `1` — `total` does depend on `limit`/`offset`. -/
theorem c3_counterexample :
    (findAllList dbOne' 0 0).total = 0 ∧ dbOne'.books.length = 1 := by
  refine ⟨?_, rfl⟩
  simp [findAllList, findAllWindow, findAllDetail, sortedBooks, joinOwner,
    dbOne', List.mergeSort]

/-- C3, amended: `total` equals the full count of books whenever the id
window is nonempty (`0 < limit` and `offset` below the count), `total` is
`0` whenever the window is empty (`limit = 0`, or `offset` at or beyond
the count — which subsumes the empty store), and — book ids being unique,
as the `book_id` primary key guarantees — the number of returned items is
at most `limit`. -/
theorem c3_total_and_page_bound (db : Db) (limit offset : Nat)
    (hnodup : (db.books.map (fun b => b.book_id)).Nodup) :
    (0 < limit → offset < db.books.length →
        (findAllList db limit offset).total = db.books.length) ∧
    (limit = 0 ∨ db.books.length ≤ offset →
        (findAllList db limit offset).total = 0) ∧
    (findAllList db limit offset).items.length ≤ limit := by
  refine ⟨?_, ?_, ?_⟩
  · intro hlim hoff
    have hlen : 0 < (((sortedBooks db).drop offset).take limit).length := by
      rw [List.length_take, List.length_drop, length_sortedBooks]
      exact lt_min_iff.mpr ⟨hlim, by omega⟩
    obtain ⟨a, t, hw⟩ := List.exists_cons_of_ne_nil (List.length_pos.mp hlen)
    simp [findAllList, findAllWindow, hw]
  · intro hempty
    have hwin : ((sortedBooks db).drop offset).take limit = [] := by
      rcases hempty with h | h
      · rw [h, List.take_zero]
      · rw [List.drop_eq_nil_of_le (by rw [length_sortedBooks]; exact h)]
        exact List.take_nil
    simp [findAllList, findAllWindow, hwin]
  · have hlenEq : (findAllList db limit offset).items.length =
        ((joinOwner db).filter (fun p =>
          ((findAllWindow db limit offset).map (fun r => r.id)).contains p.1.book_id)).length := by
      simp [findAllList, findAllDetail]
    have hFsub : ((((joinOwner db).filter (fun p =>
          ((findAllWindow db limit offset).map (fun r => r.id)).contains p.1.book_id)).map
            (fun p => p.1.book_id)).Sublist (db.books.map (fun b => b.book_id))) := by
      have h1 : (((joinOwner db).filter (fun p =>
          ((findAllWindow db limit offset).map (fun r => r.id)).contains p.1.book_id)).Sublist
            (joinOwner db)) := List.filter_sublist _
      have h2 := h1.map (fun p => p.1.book_id)
      have h3 : ((joinOwner db).map (fun p => p.1.book_id)) =
          ((joinOwner db).map Prod.fst).map (fun b => b.book_id) := by
        rw [List.map_map]; rfl
      have h4 := (joinOwner_fst_sublist db).map (fun b => b.book_id)
      exact h2.trans (h3 ▸ h4)
    have hFnodup := List.Nodup.sublist hFsub hnodup
    have hsubset : ∀ x ∈ (((joinOwner db).filter (fun p =>
          ((findAllWindow db limit offset).map (fun r => r.id)).contains p.1.book_id)).map
            (fun p => p.1.book_id)),
        x ∈ (findAllWindow db limit offset).map (fun r => r.id) := by
      intro x hx
      rcases List.mem_map.mp hx with ⟨p, hp, hxe⟩
      have h5 := List.of_mem_filter hp
      rw [← hxe]
      simpa using h5
    have hsp := (List.Nodup.subperm hFnodup hsubset).length_le
    rw [hlenEq]
    have hlen3 : ((findAllWindow db limit offset).map (fun r => r.id)).length ≤ limit := by
      simp [findAllWindow, List.length_take]
    simp only [List.length_map] at hsp hlen3
    omega

/-- Witness for `c3_total_and_page_bound` at `dbOne`, `limit = 3`,
`offset = 0`. -/
theorem c3_total_and_page_bound_witness :
    (findAllList dbOne 3 0).items.length ≤ 3 :=
  (c3_total_and_page_bound dbOne 3 0 (by decide)).2.2

/-- C4: `update` fails with `EntityNotFound` exactly when no book row
matches both the given `book_id` and the requesting user (covering a
missing book as well as an owner mismatch), and succeeds exactly when such
a row exists; likewise for `delete`. -/
theorem c4_update_delete_entity_not_found (db : Db) (eu : UpdateBook) (ed : DeleteBook) :
    (update db eu = Except.error (AppError.EntityNotFound "Specified boook not found") ↔
      ∀ b ∈ db.books, ¬(b.book_id = eu.book_id ∧ b.user_id = eu.requested_user)) ∧
    ((∃ db2, update db eu = Except.ok db2) ↔
      ∃ b ∈ db.books, b.book_id = eu.book_id ∧ b.user_id = eu.requested_user) ∧
    (delete db ed = Except.error (AppError.EntityNotFound "Specified book not found") ↔
      ∀ b ∈ db.books, ¬(b.book_id = ed.book_id ∧ b.user_id = ed.requested_user)) ∧
    ((∃ db2, delete db ed = Except.ok db2) ↔
      ∃ b ∈ db.books, b.book_id = ed.book_id ∧ b.user_id = ed.requested_user) := by
  have hcu : db.books.countP (updMatches eu) = 0 ↔
      ∀ b ∈ db.books, ¬(b.book_id = eu.book_id ∧ b.user_id = eu.requested_user) := by
    rw [List.countP_eq_zero]
    constructor
    · intro h b hb hc
      exact h b hb (by simp [updMatches, hc.1, hc.2])
    · intro h b hb hc
      simp only [updMatches, Bool.and_eq_true, beq_iff_eq] at hc
      exact h b hb hc
  have hcd : db.books.countP (delMatches ed) = 0 ↔
      ∀ b ∈ db.books, ¬(b.book_id = ed.book_id ∧ b.user_id = ed.requested_user) := by
    rw [List.countP_eq_zero]
    constructor
    · intro h b hb hc
      exact h b hb (by simp [delMatches, hc.1, hc.2])
    · intro h b hb hc
      simp only [delMatches, Bool.and_eq_true, beq_iff_eq] at hc
      exact h b hb hc
  refine ⟨?_, ?_, ?_, ?_⟩
  · unfold update
    by_cases h0 : db.books.countP (updMatches eu) = 0
    · have hlt : db.books.countP (updMatches eu) < 1 := by omega
      rw [if_pos hlt]
      constructor
      · intro _
        exact hcu.mp h0
      · intro _
        rfl
    · have hlt : ¬ (db.books.countP (updMatches eu) < 1) := by omega
      simp only [hlt, if_false]
      constructor
      · intro hcontra
        exact absurd hcontra (by simp)
      · intro hforall
        exact absurd (hcu.mpr hforall) h0
  · unfold update
    by_cases h0 : db.books.countP (updMatches eu) = 0
    · have hlt : db.books.countP (updMatches eu) < 1 := by omega
      simp only [hlt, if_true]
      constructor
      · rintro ⟨db2, hdb2⟩
        exact absurd hdb2 (by simp)
      · rintro ⟨b, hb, hc⟩
        exact absurd h0 (by
          rw [hcu]
          push_neg
          exact ⟨b, hb, hc⟩)
    · have hlt : ¬ (db.books.countP (updMatches eu) < 1) := by omega
      simp only [hlt, if_false]
      constructor
      · intro _
        rcases List.countP_pos_iff.mp (by omega : 0 < db.books.countP (updMatches eu)) with ⟨b, hb, hc⟩
        simp only [updMatches, Bool.and_eq_true, beq_iff_eq] at hc
        exact ⟨b, hb, hc⟩
      · intro _
        exact ⟨_, rfl⟩
  · unfold delete
    by_cases h0 : db.books.countP (delMatches ed) = 0
    · have hlt : db.books.countP (delMatches ed) < 1 := by omega
      rw [if_pos hlt]
      constructor
      · intro _
        exact hcd.mp h0
      · intro _
        rfl
    · have hlt : ¬ (db.books.countP (delMatches ed) < 1) := by omega
      simp only [hlt, if_false]
      constructor
      · intro hcontra
        exact absurd hcontra (by simp)
      · intro hforall
        exact absurd (hcd.mpr hforall) h0
  · unfold delete
    by_cases h0 : db.books.countP (delMatches ed) = 0
    · have hlt : db.books.countP (delMatches ed) < 1 := by omega
      simp only [hlt, if_true]
      constructor
      · rintro ⟨db2, hdb2⟩
        exact absurd hdb2 (by simp)
      · rintro ⟨b, hb, hc⟩
        exact absurd h0 (by
          rw [hcd]
          push_neg
          exact ⟨b, hb, hc⟩)
    · have hlt : ¬ (db.books.countP (delMatches ed) < 1) := by omega
      simp only [hlt, if_false]
      constructor
      · intro _
        rcases List.countP_pos_iff.mp (by omega : 0 < db.books.countP (delMatches ed)) with ⟨b, hb, hc⟩
        simp only [delMatches, Bool.and_eq_true, beq_iff_eq] at hc
        exact ⟨b, hb, hc⟩
      · intro _
        exact ⟨_, rfl⟩

/-- C6: the id window of step (a) is ordered by `created_at` descending,
the detail rows of step (b) are ordered by `created_at` descending as
well, and `find_all`'s items are exactly the projection of those detail
rows, in that order. -/
theorem c6_find_all_descending (db : Db) (limit offset : Nat) :
    (((sortedBooks db).drop offset).take limit).Pairwise
      (fun a b => b.created_at ≤ a.created_at) ∧
    (findAllDetail db ((findAllWindow db limit offset).map (fun r => r.id))).Pairwise
      (fun p q => q.1.created_at ≤ p.1.created_at) ∧
    (findAllList db limit offset).items =
      ((findAllDetail db ((findAllWindow db limit offset).map (fun r => r.id))).map
        toBookRow).map Book.fromRow := by
  refine ⟨?_, sorted_findAllDetail db _, rfl⟩
  exact List.Pairwise.sublist
    ((List.take_sublist _ _).trans (List.drop_sublist _ _)) (sorted_sortedBooks db)

/-- C8: when no book row carries the requested id, `find_by_id` returns
`ok none` — absence of a row is not an error at the repository level. -/
theorem c8_find_by_id_absent (db : Db) (bid : Nat)
    (h : ∀ b ∈ db.books, b.book_id ≠ bid) :
    find_by_id db bid = Except.ok none := by
  unfold find_by_id findById
  have hnone : (joinOwner db).find? (fun p => p.1.book_id == bid) = none := by
    rw [List.find?_eq_none]
    intro p hp
    simp only [beq_iff_eq]
    exact h p.1 (mem_joinOwner_books hp)
  rw [hnone]
  rfl

/-- Witness for `c8_find_by_id_absent` at `dbOne` and the absent id 42. -/
theorem c8_find_by_id_absent_witness :
    find_by_id dbOne 42 = Except.ok none :=
  c8_find_by_id_absent dbOne 42 (by decide)

/-- C9: `show_book` returns the book (status 200) when `find_by_id` yields
one, and `EntityNotFound` (status 404) when it yields `none`. -/
theorem c9_show_book_status (db : Db) (bid : Nat) :
    (∀ b, findById db bid = some b →
        show_book db bid = Except.ok b ∧ httpStatus (show_book db bid) = 200) ∧
    (findById db bid = none →
        show_book db bid = Except.error (AppError.EntityNotFound "not found") ∧
        httpStatus (show_book db bid) = 404) := by
  constructor
  · intro b hb
    simp [show_book, find_by_id, hb, httpStatus]
  · intro hb
    simp [show_book, find_by_id, hb, httpStatus]

theorem countP_key_le_one (l : List BooksRow) (k : Nat) (p : BooksRow → Bool)
    (hn : (l.map (fun b => b.book_id)).Nodup)
    (hp : ∀ b, p b = true → b.book_id = k) :
    l.countP p ≤ 1 := by
  induction l with
  | nil => simp
  | cons a t ih =>
    rw [List.map_cons, List.nodup_cons] at hn
    rw [List.countP_cons]
    cases hpa : p a with
    | false => simpa [hpa] using ih hn.2
    | true =>
      have hz : t.countP p = 0 := by
        rw [List.countP_eq_zero]
        intro b hb hbp
        apply hn.1
        have hbk : b.book_id = a.book_id := by rw [hp b hbp, hp a hpa]
        exact hbk ▸ List.mem_map.mpr ⟨b, hb, rfl⟩
      simp [hz, hpa]

/-- C10: a successful `update` leaves `users` and `checkouts` untouched,
matches exactly one book row (book ids being unique), rewrites the books
table row-by-row, and the per-row rewrite changes nothing on a
non-matching row while changing only `title`, `author`, `isbn` and
`description` — never `book_id`, `user_id` or `created_at` — on the
matching one. -/
theorem c10_update_frame (db : Db) (e : UpdateBook) (db2 : Db)
    (h : update db e = Except.ok db2)
    (hnodup : (db.books.map (fun b => b.book_id)).Nodup) :
    db2.users = db.users ∧ db2.checkouts = db.checkouts ∧
    db.books.countP (updMatches e) = 1 ∧
    db2.books = db.books.map (applyUpdate e) ∧
    (∀ b, (applyUpdate e b).book_id = b.book_id ∧
          (applyUpdate e b).user_id = b.user_id ∧
          (applyUpdate e b).created_at = b.created_at) ∧
    (∀ b, updMatches e b = false → applyUpdate e b = b) ∧
    (∀ b, updMatches e b = true →
        (applyUpdate e b).title = e.title ∧ (applyUpdate e b).author = e.author ∧
        (applyUpdate e b).isbn = e.isbn ∧ (applyUpdate e b).description = e.description) := by
  unfold update at h
  by_cases h0 : db.books.countP (updMatches e) < 1
  · rw [if_pos h0] at h
    exact absurd h (by simp)
  · rw [if_neg h0] at h
    have hdb2 : Db.mk (db.books.map (applyUpdate e)) db.users db.checkouts = db2 := by
      exact Except.ok.inj h
    have hle : db.books.countP (updMatches e) ≤ 1 := by
      apply countP_key_le_one db.books e.book_id (updMatches e) hnodup
      intro b hb
      simp only [updMatches, Bool.and_eq_true, beq_iff_eq] at hb
      exact hb.1
    refine ⟨?_, ?_, by omega, ?_, ?_, ?_, ?_⟩
    · rw [← hdb2]
    · rw [← hdb2]
    · rw [← hdb2]
    · intro b
      unfold applyUpdate
      cases hm : updMatches e b <;> simp [hm]
    · intro b hm
      unfold applyUpdate
      simp [hm]
    · intro b hm
      unfold applyUpdate
      simp [hm]

/-- A store of two books with distinct ids and owners. -/
def dbTwo : Db :=
  { books := [⟨1, "b1", "a1", "i1", "d1", 1, 3⟩, ⟨2, "b2", "a2", "i2", "d2", 2, 9⟩]
    users := [⟨1, "u1"⟩, ⟨2, "u2"⟩]
    checkouts := [] }

/-- An update-command for book 2 issued by its owner, user 2. -/
def updTwo : UpdateBook := ⟨2, "T", "A", "I", "D", 2⟩

/-- `dbTwo` after `updTwo`. -/
def dbTwoUpd : Db :=
  { books := [⟨1, "b1", "a1", "i1", "d1", 1, 3⟩, ⟨2, "T", "A", "I", "D", 2, 9⟩]
    users := [⟨1, "u1"⟩, ⟨2, "u2"⟩]
    checkouts := [] }

/-- Witness for `c10_update_frame` at `dbTwo` and `updTwo`. -/
theorem c10_update_frame_witness : dbTwoUpd.users = dbTwo.users :=
  (c10_update_frame dbTwo updTwo dbTwoUpd rfl (by decide)).1

end BookManager
